import Mathlib

set_option linter.unusedVariables false

/-!
Shallow embedding of the Toolshed advanced-RAG tool-fusion pipeline.

The repository orchestrates LLM ("Generation Port") and vector-search
("Similarity Search Port") calls.  Both ports are modelled as explicit
behaviours passed to the embedded functions: an attempt-indexed function
giving, for each invocation, either a raised exception or a returned value.
Prompt text is not observable by any verified property (the spec declares
prompt wording a non-goal), so message construction is embedded only up to
the data it computes and the exceptions it can raise; all control flow,
validation, retry and fallback logic is translated faithfully from the
Python source.
-/

/-- A retrieved catalog entry, as in `langchain` `Document`: the
`tool_name` metadata field and the `page_content` description. -/
structure Document where
  tool_name : String
  page_content : String
deriving DecidableEq, Repr

/-- Outcome of one raw structured Generation Port invocation
(`structured_llm.invoke`): the call either raises, or the model produces a
list of tool-name strings that is then schema-validated. -/
inductive GenOutcome where
  | raise : GenOutcome
  | ret (tool_names : List String) : GenOutcome
deriving DecidableEq, Repr

/-- Pydantic validation applied by `llm.with_structured_output` for the
reranker schemas, whose `tool_names` field is declared with
`min_length = k` and `max_length = k`: a raised call or a list of the wrong
length becomes a validation exception (`none`); a list of length exactly
`k` is returned parsed (`some`). -/
def parseExactLengthList (k : Nat) : GenOutcome → Option (List String)
  | .raise => none
  | .ret l => if l.length = k then some l else none

/-- A Python exception value: `ValueError(msg)` or any other error kind. -/
inductive PyError where
  | valueError (msg : String) : PyError
  | otherError (msg : String) : PyError
deriving DecidableEq, Repr

/-- The message carried by a Python exception (`str(e)`). -/
def PyError.message : PyError → String
  | .valueError m => m
  | .otherError m => m

namespace FAISSVectorStoreIndexer

/-- The error message of `FAISSVectorStoreIndexer.query` when `self.index`
is `None`. -/
def notReadyMessage : String :=
  "Index has not been created yet. Call 'index_documents' or 'load_index' first."

/-- `FAISSVectorStoreIndexer.query`: if the index has been populated
(`self.index is not None`, modelled as `some search`) it returns
`self.index.similarity_search(query, k)`; otherwise it raises
`ValueError` with `notReadyMessage`. -/
def query (index : Option (String → Nat → List Document)) (q : String) (k : Nat) :
    Except PyError (List Document) :=
  match index with
  | some search => .ok (search q k)
  | none => .error (.valueError notReadyMessage)

end FAISSVectorStoreIndexer

namespace InitialToolRetrievalModule

/-- `InitialToolRetrievalModule.generate`: a single call of
`self.toolshed_knowledge_base.query(query, k=top_k)` (the Similarity Search
Port, given here as an invocation-indexed oracle `kb`); on success the
documents are returned unchanged, and any exception `e` is re-raised as
`ValueError(f"Error retrieving tools: {str(e)}")`.  The second component is
the number of port invocations performed. -/
def generate (kb : Nat → Except PyError (List Document)) (query : String) (top_k : Nat) :
    Except PyError (List Document) × Nat :=
  match kb 0 with
  | .ok docs => (.ok docs, 1)
  | .error e => (.error (.valueError ("Error retrieving tools: " ++ e.message)), 1)

end InitialToolRetrievalModule

namespace MultiQueryExpansionModule

/-- `MultiQueryExpansionModule.generate`: a two-pass, retry-free protocol.
`firstPass` is the outcome of `self.llm.invoke(messages)` (free-form
reasoning); `secondPass` is the outcome of
`self.structured_llm.invoke(structured_message).expanded_queries`.  The
`ExpandedQueries` schema declares its list field with a `description` only
and **no** `min_length`/`max_length`, so no length validation is applied
and the extracted list is returned unchanged; any exception from either
pass propagates uncaught (there is no `try` in this method). -/
def generate (n_items : Nat) (query : String)
    (firstPass : Except Unit String) (secondPass : Except Unit (List String)) :
    Except Unit (List String) := do
  let _ai_message ← firstPass
  let expanded_queries ← secondPass
  pure expanded_queries

end MultiQueryExpansionModule

namespace RerankerMultiQueryExpansionVariations

/-- The retry loop of `RerankerMultiQueryExpansionVariations.generate`
(`while attempts < max_attempts`): `beh i` is the raw outcome of the
attempt-`i` call `self.structured_llm.invoke(messages)` (the same composed
messages each attempt); a parse failure is swallowed by `except: pass`; a
parsed `result` is stored (overwriting any earlier one) and the loop breaks
when `len(result.tool_names) == self.top_k`.  Arguments: attempt index,
remaining attempts, current `result`.  Returns the final `result` and the
number of Generation Port invocations made. -/
def attemptLoop (top_k : Nat) (beh : Nat → GenOutcome) :
    Nat → Nat → Option (List String) → Option (List String) × Nat
  | _i, 0, result => (result, 0)
  | i, rem + 1, result =>
    match parseExactLengthList top_k (beh i) with
    | none =>
      let rc := attemptLoop top_k beh (i + 1) rem result
      (rc.1, rc.2 + 1)
    | some l =>
      if l.length = top_k then (some l, 1)
      else
        let rc := attemptLoop top_k beh (i + 1) rem (some l)
        (rc.1, rc.2 + 1)

/-- `RerankerMultiQueryExpansionVariations.generate`, value part: composes
the prompt (pure string building over the inputs, abstracted: no operation
there can raise), runs the retry loop with `max_attempts = 3`, then
returns `result.tool_names` if `result` is set and has length `top_k`,
else the empty list.  `ai_response` is dynamically typed in Python
(annotated `str`, but any value can be interpolated into the prompt), so
it is a type parameter here. -/
def generateRun {α : Type} (top_k : Nat) (user_question : String) (ai_response : α)
    (user_question_results : List Document) (sentence_results : List (List Document))
    (beh : Nat → GenOutcome) : List String :=
  match (attemptLoop top_k beh 0 3 none).1 with
  | some l => if l.length = top_k then l else []
  | none => []

/-- `RerankerMultiQueryExpansionVariations.generate` as a possibly-raising
Python call: every operation that can raise sits inside the attempt
`try`, and the prompt composition before the loop is pure, so the call
always returns normally. -/
def generate {α : Type} (top_k : Nat) (user_question : String) (ai_response : α)
    (user_question_results : List Document) (sentence_results : List (List Document))
    (beh : Nat → GenOutcome) : Except Unit (List String) :=
  .ok (generateRun top_k user_question ai_response user_question_results sentence_results beh)

/-- Number of Generation Port invocations made by one
`RerankerMultiQueryExpansionVariations.generate` call: one
`structured_llm.invoke` per executed attempt. -/
def portInvocations {α : Type} (top_k : Nat) (user_question : String) (ai_response : α)
    (user_question_results : List Document) (sentence_results : List (List Document))
    (beh : Nat → GenOutcome) : Nat :=
  (attemptLoop top_k beh 0 3 none).2

end RerankerMultiQueryExpansionVariations

namespace RerankerDecomposedQueries

/-- The quantities computed by
`RerankerDecomposedQueries._get_final_combined_thoughts_messages` while
building the system and human prompts (the prompt text itself is not
observable by any verified property). -/
structure CombinedThoughtsMessages where
  num_intents : Nat
  top_k_per_intent : Nat
  num_tools_divisible_by_intent : Nat
deriving DecidableEq, Repr

/-- `RerankerDecomposedQueries._get_final_combined_thoughts_messages`:
computes `num_intents = len(list_of_intents)`, then
`top_k_per_intent = len(list_of_list_of_tools[0])` — an `IndexError` when
`list_of_list_of_tools` is empty — then
`max(1, self.final_top_k // num_intents)` — a `ZeroDivisionError` when
`list_of_intents` is empty. -/
def getFinalCombinedThoughtsMessages (final_top_k : Nat) (user_question : String)
    (list_of_intents : List String) (list_of_list_of_tools : List (List String)) :
    Except Unit CombinedThoughtsMessages :=
  match list_of_list_of_tools with
  | [] => .error ()
  | first :: _ =>
    match list_of_intents.length with
    | 0 => .error ()
    | n + 1 =>
      .ok { num_intents := n + 1
            top_k_per_intent := first.length
            num_tools_divisible_by_intent := max 1 (final_top_k / (n + 1)) }

/-- The Generation Port outcomes available to one attempt of the
Cross-Intent Combiner: the first (free-form reasoning) pass
`self.llm.invoke(messages).content` and the raw second (structured
extraction) pass `self.structured_llm.invoke(structured_messages)`. -/
structure AttemptBehavior where
  firstPass : Except Unit String
  secondPass : GenOutcome
deriving Repr

/-- The retry loop of `RerankerDecomposedQueries.generate`: per attempt,
compose the messages (may raise), run the reasoning pass (may raise), run
the structured extraction pass (parse may raise), store the parsed
`result`, and break when `len(list(set(result.tool_names)))` equals
`final_top_k`; any exception is swallowed by `except: continue`.
Arguments: attempt index, remaining attempts, current `result`.  Returns
the final `result` and the number of Generation Port invocations made
(the reasoning pass and the extraction pass each count as one). -/
def attemptLoop (final_top_k : Nat) (compose : Except Unit CombinedThoughtsMessages)
    (beh : Nat → AttemptBehavior) :
    Nat → Nat → Option (List String) → Option (List String) × Nat
  | _i, 0, result => (result, 0)
  | i, rem + 1, result =>
    match compose with
    | .error _ =>
      attemptLoop final_top_k compose beh (i + 1) rem result
    | .ok _messages =>
      match (beh i).firstPass with
      | .error _ =>
        let rc := attemptLoop final_top_k compose beh (i + 1) rem result
        (rc.1, rc.2 + 1)
      | .ok _ai_response_content =>
        match parseExactLengthList final_top_k (beh i).secondPass with
        | none =>
          let rc := attemptLoop final_top_k compose beh (i + 1) rem result
          (rc.1, rc.2 + 2)
        | some l =>
          if l.dedup.length = final_top_k then (some l, 2)
          else
            let rc := attemptLoop final_top_k compose beh (i + 1) rem (some l)
            (rc.1, rc.2 + 2)

/-- `RerankerDecomposedQueries.generate`, value part: runs the retry loop
with `max_attempts = 3`, then returns `result.tool_names` if `result` is
set and `len(list(set(result.tool_names))) == self.final_top_k`, else the
empty list. -/
def generateRun (final_top_k : Nat) (user_question : String)
    (list_of_intents : List String) (list_of_list_of_tools : List (List String))
    (beh : Nat → AttemptBehavior) : List String :=
  match (attemptLoop final_top_k
      (getFinalCombinedThoughtsMessages final_top_k user_question
        list_of_intents list_of_list_of_tools) beh 0 3 none).1 with
  | some l => if l.dedup.length = final_top_k then l else []
  | none => []

/-- `RerankerDecomposedQueries.generate` as a possibly-raising Python
call: the whole attempt body, prompt composition included, sits inside
`try ... except Exception: continue`, and the code after the loop is pure,
so the call always returns normally. -/
def generate (final_top_k : Nat) (user_question : String)
    (list_of_intents : List String) (list_of_list_of_tools : List (List String))
    (beh : Nat → AttemptBehavior) : Except Unit (List String) :=
  .ok (generateRun final_top_k user_question list_of_intents list_of_list_of_tools beh)

/-- Number of Generation Port invocations made by one
`RerankerDecomposedQueries.generate` call. -/
def portInvocations (final_top_k : Nat) (user_question : String)
    (list_of_intents : List String) (list_of_list_of_tools : List (List String))
    (beh : Nat → AttemptBehavior) : Nat :=
  (attemptLoop final_top_k
    (getFinalCombinedThoughtsMessages final_top_k user_question
      list_of_intents list_of_list_of_tools) beh 0 3 none).2

end RerankerDecomposedQueries

/-- One entry of `expanded_query_dicts`, produced by the workflow node
`retrieve_tools_for_expanded_query`:
`{"expanded_query": ..., "retrieved_tools": ...}`. -/
structure ExpandedQueryDict where
  expanded_query : String
  retrieved_tools : List Document
deriving DecidableEq, Repr

/-- One entry of `decomposed_query_dicts`, produced by the workflow node
`rerank_expanded_queries`. -/
structure DecomposedQueryDict where
  decomposed_query : String
  expanded_query_dicts : List ExpandedQueryDict
  decomposed_query_tools : List Document
  final_top_k_tools : List String
deriving DecidableEq, Repr, Inhabited

/-- The per-branch `DecomposedQueryState` of the LangGraph subgraph, as
read by `rerank_expanded_queries` (the `expanded_queries` field, consumed
only by the inner fan-out, is carried too). -/
structure DecomposedQueryState where
  decomposed_query : String
  expanded_queries : List String
  decomposed_query_tools : List Document
  expanded_query_dicts : List ExpandedQueryDict
deriving DecidableEq, Repr

/-- The top-level `ToolshedState` fields read or written by the
`rerank_decomposed_queries` node (the remaining `TypedDict` fields are not
consumed by any embedded operation). -/
structure ToolshedState where
  user_query : String
  rewritten_query : String
  decomposed_query_dicts : List DecomposedQueryDict
deriving DecidableEq, Repr

/-- The argument tuple that the workflow node `rerank_expanded_queries`
passes to `reranker_multi_query_expansion_variations.generate`.  Note the
`ai_response` keyword receives `expanded_queries_list =
[eq["expanded_query"] for eq in expanded_query_dicts]` — a `List[str]`,
the extracted paraphrases — although the callee annotates that parameter
as `str`. -/
structure RerankerMQEVCall where
  user_question : String
  ai_response : List String
  user_question_results : List Document
  sentence_results : List (List Document)
deriving DecidableEq, Repr

/-- The bindings computed by the `rerank_expanded_queries` node before
calling the Intent-Level Reranker. -/
def rerankExpandedQueriesCall (state : DecomposedQueryState) : RerankerMQEVCall :=
  { user_question := state.decomposed_query
    ai_response := state.expanded_query_dicts.map (fun eq => eq.expanded_query)
    user_question_results := state.decomposed_query_tools
    sentence_results := state.expanded_query_dicts.map (fun eq => eq.retrieved_tools) }

/-- The workflow node `rerank_expanded_queries`: calls the Intent-Level
Reranker on the bindings of `rerankExpandedQueriesCall` and wraps the
result into the branch's `decomposed_query_dicts` entry. -/
def rerank_expanded_queries (top_k : Nat) (state : DecomposedQueryState)
    (beh : Nat → GenOutcome) : DecomposedQueryDict :=
  let c := rerankExpandedQueriesCall state
  let top_tools := RerankerMultiQueryExpansionVariations.generateRun top_k
    c.user_question c.ai_response c.user_question_results c.sentence_results beh
  { decomposed_query := state.decomposed_query
    expanded_query_dicts := state.expanded_query_dicts
    decomposed_query_tools := state.decomposed_query_tools
    final_top_k_tools := top_tools }

/-- Data flow of one per-intent branch up to the state fed to
`rerank_expanded_queries`: `expand_query` runs
`multi_query_expansion_variation_module.generate` (whose free-form
reasoning pass result is discarded by that method),
`retrieve_tools_for_decomposed_query` retrieves for the intent itself, and
the inner fan-out retrieves per extracted paraphrase (`retrieve q k` is
the successful Similarity Search result for query `q` with count `k`). -/
def branchState (n_items : Nat) (decomposed_query : String)
    (firstPass : Except Unit String) (secondPass : Except Unit (List String))
    (retrieve : String → Nat → List Document) (individual_top_k : Nat) :
    Except Unit DecomposedQueryState := do
  let expanded_queries ← MultiQueryExpansionModule.generate n_items decomposed_query
    firstPass secondPass
  pure { decomposed_query := decomposed_query
         expanded_queries := expanded_queries
         decomposed_query_tools := retrieve decomposed_query individual_top_k
         expanded_query_dicts := expanded_queries.map
           (fun eq => { expanded_query := eq, retrieved_tools := retrieve eq individual_top_k }) }

/-- The workflow node `rerank_decomposed_queries`: if exactly one
decomposed query reached fan-in, its branch's `final_top_k_tools` is
returned unchanged; otherwise the Cross-Intent Combiner is invoked on the
rewritten query, the intent list and the per-intent shortlists.  The
second component counts the Generation Port invocations the node makes
(`0` exactly when the Combiner is never invoked). -/
def rerank_decomposed_queries (final_top_k : Nat) (state : ToolshedState)
    (beh : Nat → RerankerDecomposedQueries.AttemptBehavior) : List String × Nat :=
  let decomposed_query_dicts := state.decomposed_query_dicts
  let decomposed_queries_list := decomposed_query_dicts.map (fun dq => dq.decomposed_query)
  if decomposed_queries_list.length = 1 then
    ((decomposed_query_dicts.headD default).final_top_k_tools, 0)
  else
    let decomposed_queries_final_tools_list :=
      decomposed_query_dicts.map (fun dq => dq.final_top_k_tools)
    (RerankerDecomposedQueries.generateRun final_top_k state.rewritten_query
       decomposed_queries_list decomposed_queries_final_tools_list beh,
     RerankerDecomposedQueries.portInvocations final_top_k state.rewritten_query
       decomposed_queries_list decomposed_queries_final_tools_list beh)

/-! Helper lemmas about schema validation and the two retry loops. -/

/-- A list accepted by the exact-length schema has length `k`. -/
theorem parseExactLengthList_length {k : Nat} {o : GenOutcome} {l : List String}
    (h : parseExactLengthList k o = some l) : l.length = k := by
  cases o with
  | raise => exact absurd h (by simp [parseExactLengthList])
  | ret m =>
    by_cases hm : m.length = k
    · simp only [parseExactLengthList, hm, if_true, Option.some.injEq] at h
      rw [← h]
      exact hm
    · simp [parseExactLengthList, hm] at h

/-- An outcome that raises or returns a wrong-length list is rejected by
the exact-length schema. -/
theorem parseExactLengthList_eq_none {k : Nat} {o : GenOutcome}
    (h : o = .raise ∨ ∃ l, o = .ret l ∧ l.length ≠ k) :
    parseExactLengthList k o = none := by
  rcases h with h | ⟨l, hl, hlen⟩
  · rw [h]; rfl
  · rw [hl]; simp [parseExactLengthList, hlen]

namespace RerankerMultiQueryExpansionVariations

/-- Every `result` stored by the Intent-Level Reranker retry loop has
passed the exact-length schema, so it has length `top_k`. -/
theorem attemptLoop_result_length (top_k : Nat) (beh : Nat → GenOutcome) :
    ∀ (fuel i : Nat) (r : Option (List String)),
      (∀ l, r = some l → l.length = top_k) →
      ∀ l, (attemptLoop top_k beh i fuel r).1 = some l → l.length = top_k := by
  intro fuel
  induction fuel with
  | zero => intro i r hr l hl; exact hr l hl
  | succ rem ih =>
    intro i r hr l hl
    unfold attemptLoop at hl
    cases hp : parseExactLengthList top_k (beh i) with
    | none =>
      rw [hp] at hl
      exact ih (i + 1) r hr l hl
    | some m =>
      rw [hp] at hl
      have hm : m.length = top_k := parseExactLengthList_length hp
      simp only [hm, if_true, Option.some.injEq] at hl
      exact hl ▸ hm

/-- The Intent-Level Reranker retry loop makes at most one Generation Port
invocation per remaining attempt. -/
theorem attemptLoop_calls_le (top_k : Nat) (beh : Nat → GenOutcome) :
    ∀ (fuel i : Nat) (r : Option (List String)),
      (attemptLoop top_k beh i fuel r).2 ≤ fuel := by
  intro fuel
  induction fuel with
  | zero => intro i r; exact Nat.le_refl 0
  | succ rem ih =>
    intro i r
    unfold attemptLoop
    cases hp : parseExactLengthList top_k (beh i) with
    | none =>
      simpa using Nat.add_le_add_right (ih (i + 1) r) 1
    | some m =>
      have hm : m.length = top_k := parseExactLengthList_length hp
      simp only [hm, if_true]
      exact Nat.succ_le_succ (Nat.zero_le rem)

/-- When the schema rejects every remaining attempt, the Intent-Level
Reranker retry loop leaves `result` unchanged and makes one invocation
per attempt. -/
theorem attemptLoop_all_rejected (top_k : Nat) (beh : Nat → GenOutcome) :
    ∀ (fuel i : Nat) (r : Option (List String)),
      (∀ j, j < fuel → parseExactLengthList top_k (beh (i + j)) = none) →
      attemptLoop top_k beh i fuel r = (r, fuel) := by
  intro fuel
  induction fuel with
  | zero => intro i r _; rfl
  | succ rem ih =>
    intro i r hrej
    unfold attemptLoop
    have h0 : parseExactLengthList top_k (beh i) = none := by
      have := hrej 0 (Nat.succ_pos rem)
      simpa using this
    rw [h0]
    have hrest : ∀ j, j < rem → parseExactLengthList top_k (beh (i + 1 + j)) = none := by
      intro j hj
      have := hrej (j + 1) (Nat.succ_lt_succ hj)
      have harith : i + (j + 1) = i + 1 + j := by omega
      rw [harith] at this
      exact this
    rw [ih (i + 1) r hrest]

end RerankerMultiQueryExpansionVariations

namespace RerankerDecomposedQueries

/-- Every `result` stored by the Cross-Intent Combiner retry loop has
passed the exact-length schema, so it has length `final_top_k`. -/
theorem combinerAttemptLoop_result_length (k : Nat) (compose : Except Unit CombinedThoughtsMessages)
    (beh : Nat → AttemptBehavior) :
    ∀ (fuel i : Nat) (r : Option (List String)),
      (∀ l, r = some l → l.length = k) →
      ∀ l, (attemptLoop k compose beh i fuel r).1 = some l → l.length = k := by
  intro fuel
  induction fuel with
  | zero => intro i r hr l hl; exact hr l hl
  | succ rem ih =>
    intro i r hr l hl
    unfold attemptLoop at hl
    cases compose with
    | error e => exact ih (i + 1) r hr l hl
    | ok msgs =>
      cases hfp : (beh i).firstPass with
      | error e =>
        rw [hfp] at hl
        exact ih (i + 1) r hr l hl
      | ok s =>
        rw [hfp] at hl
        cases hp : parseExactLengthList k (beh i).secondPass with
        | none =>
          rw [hp] at hl
          exact ih (i + 1) r hr l hl
        | some m =>
          rw [hp] at hl
          have hm : m.length = k := parseExactLengthList_length hp
          by_cases hd : m.dedup.length = k
          · simp only [hd, if_true, Option.some.injEq] at hl
            exact hl ▸ hm
          · simp only [hd, if_false] at hl
            refine ih (i + 1) (some m) ?_ l hl
            intro l' hl'
            cases hl'
            exact hm

/-- The Cross-Intent Combiner retry loop makes at most two Generation Port
invocations per remaining attempt. -/
theorem combinerAttemptLoop_calls_le (k : Nat) (compose : Except Unit CombinedThoughtsMessages)
    (beh : Nat → AttemptBehavior) :
    ∀ (fuel i : Nat) (r : Option (List String)),
      (attemptLoop k compose beh i fuel r).2 ≤ 2 * fuel := by
  intro fuel
  induction fuel with
  | zero => intro i r; exact Nat.le_refl 0
  | succ rem ih =>
    intro i r
    unfold attemptLoop
    cases compose with
    | error e =>
      exact Nat.le_trans (ih (i + 1) r) (by omega)
    | ok msgs =>
      cases hfp : (beh i).firstPass with
      | error e =>
        have h := ih (i + 1) r
        simp only []
        omega
      | ok s =>
        cases hp : parseExactLengthList k (beh i).secondPass with
        | none =>
          have h := ih (i + 1) r
          simp only []
          omega
        | some m =>
          by_cases hd : m.dedup.length = k
          · simp only [hd, if_true]
            omega
          · simp only [hd, if_false]
            have h := ih (i + 1) (some m)
            omega

/-- When prompt composition raises, no attempt invokes the Generation Port
and `result` is left unchanged. -/
theorem attemptLoop_compose_error (k : Nat) (beh : Nat → AttemptBehavior) :
    ∀ (fuel i : Nat) (r : Option (List String)),
      attemptLoop k (.error ()) beh i fuel r = (r, 0) := by
  intro fuel
  induction fuel with
  | zero => intro i r; rfl
  | succ rem ih =>
    intro i r
    unfold attemptLoop
    exact ih (i + 1) r

/-- When every remaining attempt fails — the reasoning pass raises, the
extraction pass is rejected by the schema, or the parsed list fails the
set-cardinality check — the loop can only leave a `result` whose
deduplicated length differs from `final_top_k`. -/
theorem attemptLoop_all_fail (k : Nat) (compose : Except Unit CombinedThoughtsMessages)
    (beh : Nat → AttemptBehavior) :
    ∀ (fuel i : Nat) (r : Option (List String)),
      (∀ j, j < fuel → (beh (i + j)).firstPass = .error () ∨
        parseExactLengthList k (beh (i + j)).secondPass = none ∨
        ∃ l, parseExactLengthList k (beh (i + j)).secondPass = some l ∧ l.dedup.length ≠ k) →
      (∀ l, r = some l → l.dedup.length ≠ k) →
      ∀ l, (attemptLoop k compose beh i fuel r).1 = some l → l.dedup.length ≠ k := by
  intro fuel
  induction fuel with
  | zero => intro i r _ hr l hl; exact hr l hl
  | succ rem ih =>
    intro i r hfail hr l hl
    have hshift : ∀ j, j < rem → (beh (i + 1 + j)).firstPass = .error () ∨
        parseExactLengthList k (beh (i + 1 + j)).secondPass = none ∨
        ∃ m, parseExactLengthList k (beh (i + 1 + j)).secondPass = some m ∧
          m.dedup.length ≠ k := by
      intro j hj
      have hthis := hfail (j + 1) (Nat.succ_lt_succ hj)
      have harith : i + (j + 1) = i + 1 + j := by omega
      rw [harith] at hthis
      exact hthis
    have h0 := hfail 0 (Nat.succ_pos rem)
    rw [Nat.add_zero] at h0
    unfold attemptLoop at hl
    cases compose with
    | error e => exact ih (i + 1) r hshift hr l hl
    | ok msgs =>
      cases hfp : (beh i).firstPass with
      | error e =>
        rw [hfp] at hl
        exact ih (i + 1) r hshift hr l hl
      | ok s =>
        rw [hfp] at hl
        cases hp : parseExactLengthList k (beh i).secondPass with
        | none =>
          rw [hp] at hl
          exact ih (i + 1) r hshift hr l hl
        | some m =>
          rw [hp] at hl
          have hdm : m.dedup.length ≠ k := by
            rcases h0 with h0 | h0 | ⟨m', hm', hd'⟩
            · rw [hfp] at h0; cases h0
            · rw [hp] at h0; cases h0
            · rw [hp] at hm'
              cases hm'
              exact hd'
          simp only [hdm, if_false] at hl
          refine ih (i + 1) (some m) hshift ?_ l hl
          intro l' hl'
          cases hl'
          exact hdm

end RerankerDecomposedQueries

/-- A list whose deduplication keeps its length has no duplicates. -/
theorem nodup_of_dedup_length_eq {l : List String} (h : l.dedup.length = l.length) :
    l.Nodup := by
  have hs : l.dedup = l := (List.dedup_sublist l).eq_of_length h
  rw [← hs]
  exact l.nodup_dedup

/-! The claims. -/

/-- C6: for every input and every Generation Port behaviour inside the
attempt loop, the Intent-Level Reranker returns either a list of length
exactly `top_k` or the empty list; a wrong-length result kept from an
earlier attempt is never returned. -/
theorem c6_reranker_return_shape {α : Type} (top_k : Nat) (user_question : String)
    (ai_response : α) (user_question_results : List Document)
    (sentence_results : List (List Document)) (beh : Nat → GenOutcome) :
    RerankerMultiQueryExpansionVariations.generate top_k user_question ai_response
      user_question_results sentence_results beh = .ok [] ∨
    ∃ l, RerankerMultiQueryExpansionVariations.generate top_k user_question ai_response
      user_question_results sentence_results beh = .ok l ∧ l.length = top_k := by
  unfold RerankerMultiQueryExpansionVariations.generate
    RerankerMultiQueryExpansionVariations.generateRun
  cases hres : (RerankerMultiQueryExpansionVariations.attemptLoop top_k beh 0 3 none).1 with
  | none =>
    left
    rfl
  | some l =>
    have hlen : l.length = top_k :=
      RerankerMultiQueryExpansionVariations.attemptLoop_result_length top_k beh 3 0 none
        (by intro l' h; cases h) l hres
    right
    refine ⟨l, ?_, hlen⟩
    simp [hlen]

/-- C2 counterexample: the Intent-Level Reranker checks only
`len(result.tool_names) == self.top_k`, never uniqueness, so a duplicated
list of the right length is returned as a success. -/
theorem c2_counterexample :
    RerankerMultiQueryExpansionVariations.generate 2 "q" "resp" [] []
      (fun _ => .ret ["tool_a", "tool_a"]) = .ok ["tool_a", "tool_a"] ∧
    ¬ (["tool_a", "tool_a"] : List String).Nodup :=
  ⟨rfl, by decide⟩

/-- C2 as amended: a successful (non-empty) Intent-Level Reranker call
returns a list of length exactly `top_k`; uniqueness of the identifiers is
not guaranteed. -/
theorem c2_reranker_success_length {α : Type} (top_k : Nat) (user_question : String)
    (ai_response : α) (user_question_results : List Document)
    (sentence_results : List (List Document)) (beh : Nat → GenOutcome)
    (l : List String)
    (h : RerankerMultiQueryExpansionVariations.generate top_k user_question ai_response
      user_question_results sentence_results beh = .ok l)
    (hne : l ≠ []) : l.length = top_k := by
  unfold RerankerMultiQueryExpansionVariations.generate
    RerankerMultiQueryExpansionVariations.generateRun at h
  cases hres : (RerankerMultiQueryExpansionVariations.attemptLoop top_k beh 0 3 none).1 with
  | none =>
    rw [hres] at h
    simp only [Except.ok.injEq] at h
    exact absurd h.symm hne
  | some m =>
    have hm : m.length = top_k :=
      RerankerMultiQueryExpansionVariations.attemptLoop_result_length top_k beh 3 0 none
        (by intro l' hx; cases hx) m hres
    rw [hres] at h
    simp only [hm, if_true, Except.ok.injEq] at h
    rw [← h]
    exact hm

/-- C2 witness: a concrete successful call of length `top_k = 1`. -/
theorem c2_reranker_success_length_witness :
    RerankerMultiQueryExpansionVariations.generate 1 "q" "resp" [] []
      (fun _ => .ret ["tool_a"]) = .ok ["tool_a"] ∧
    (["tool_a"] : List String).length = 1 :=
  ⟨rfl, c2_reranker_success_length 1 "q" "resp" [] []
    (fun _ => .ret ["tool_a"]) ["tool_a"] rfl (by decide)⟩

/-- C1 counterexample: the Cross-Intent Combiner checks only that the
deduplicated returned list has `final_k` members; it never checks that the
returned identifiers come from the input shortlists, so a hallucinated
tool name outside the union of the shortlists is returned as a success. -/
theorem c1_counterexample :
    RerankerDecomposedQueries.generate 1 "q" ["intent one", "intent two"]
      [["tool_a"], ["tool_c"]]
      (fun _ => { firstPass := .ok "reasoning", secondPass := .ret ["tool_b"] })
      = .ok ["tool_b"] ∧
    "tool_b" ∉ List.flatten [["tool_a"], ["tool_c"]] :=
  ⟨rfl, by decide⟩

/-- C1 as amended: a successful (non-empty) Cross-Intent Combiner call
returns a list of length exactly `final_k` with no duplicate identifiers;
membership in the union of the input shortlists is not guaranteed. -/
theorem c1_combiner_success_length_nodup (final_top_k : Nat) (user_question : String)
    (list_of_intents : List String) (list_of_list_of_tools : List (List String))
    (beh : Nat → RerankerDecomposedQueries.AttemptBehavior) (l : List String)
    (h : RerankerDecomposedQueries.generate final_top_k user_question list_of_intents
      list_of_list_of_tools beh = .ok l)
    (hne : l ≠ []) : l.length = final_top_k ∧ l.Nodup := by
  unfold RerankerDecomposedQueries.generate RerankerDecomposedQueries.generateRun at h
  cases hres : (RerankerDecomposedQueries.attemptLoop final_top_k
      (RerankerDecomposedQueries.getFinalCombinedThoughtsMessages final_top_k user_question
        list_of_intents list_of_list_of_tools) beh 0 3 none).1 with
  | none =>
    rw [hres] at h
    simp only [Except.ok.injEq] at h
    exact absurd h.symm hne
  | some m =>
    have hm : m.length = final_top_k :=
      RerankerDecomposedQueries.combinerAttemptLoop_result_length final_top_k
        (RerankerDecomposedQueries.getFinalCombinedThoughtsMessages final_top_k user_question
          list_of_intents list_of_list_of_tools) beh 3 0 none
        (by intro l' hx; cases hx) m hres
    rw [hres] at h
    by_cases hd : m.dedup.length = final_top_k
    · simp only [hd, if_true, Except.ok.injEq] at h
      subst h
      refine ⟨hm, nodup_of_dedup_length_eq ?_⟩
      rw [hd, hm]
    · simp only [hd, if_false, Except.ok.injEq] at h
      exact absurd h.symm hne

/-- C1 witness: a concrete successful combiner call of length
`final_k = 1` whose output is duplicate-free. -/
theorem c1_combiner_success_length_nodup_witness :
    RerankerDecomposedQueries.generate 1 "q" ["intent one", "intent two"]
      [["tool_a"], ["tool_c"]]
      (fun _ => { firstPass := .ok "reasoning", secondPass := .ret ["tool_a"] })
      = .ok ["tool_a"] ∧
    (["tool_a"] : List String).length = 1 ∧ (["tool_a"] : List String).Nodup :=
  ⟨rfl, c1_combiner_success_length_nodup 1 "q" ["intent one", "intent two"]
    [["tool_a"], ["tool_c"]]
    (fun _ => { firstPass := .ok "reasoning", secondPass := .ret ["tool_a"] })
    ["tool_a"] rfl (by decide)⟩

/-- C3 counterexample: one Cross-Intent Combiner call in which each of the
3 attempts completes its reasoning pass and its extraction pass but fails
the set-cardinality check, invoking the Generation Port 6 times — more
than the 3 the claim allows. -/
theorem c3_counterexample :
    3 < RerankerDecomposedQueries.portInvocations 2 "q" ["intent one", "intent two"]
      [["tool_a", "tool_b"], ["tool_c", "tool_d"]]
      (fun _ => { firstPass := .ok "reasoning", secondPass := .ret ["tool_a", "tool_a"] }) := by
  decide

/-- C3 as amended: both components make at most 3 attempts; the
Intent-Level Reranker invokes the Generation Port at most 3 times per
call, and the Cross-Intent Combiner — whose every attempt comprises a
reasoning pass and an extraction pass — at most 6 times per call. -/
theorem c3_port_invocation_bounds {α : Type} (top_k final_top_k : Nat)
    (uq1 : String) (ai_response : α) (user_question_results : List Document)
    (sentence_results : List (List Document)) (ibeh : Nat → GenOutcome)
    (uq2 : String) (list_of_intents : List String)
    (list_of_list_of_tools : List (List String))
    (cbeh : Nat → RerankerDecomposedQueries.AttemptBehavior) :
    RerankerMultiQueryExpansionVariations.portInvocations top_k uq1 ai_response
      user_question_results sentence_results ibeh ≤ 3 ∧
    RerankerDecomposedQueries.portInvocations final_top_k uq2 list_of_intents
      list_of_list_of_tools cbeh ≤ 6 := by
  constructor
  · exact RerankerMultiQueryExpansionVariations.attemptLoop_calls_le top_k ibeh 3 0 none
  · exact RerankerDecomposedQueries.combinerAttemptLoop_calls_le final_top_k
      (RerankerDecomposedQueries.getFinalCombinedThoughtsMessages final_top_k uq2
        list_of_intents list_of_list_of_tools) cbeh 3 0 none

/-- C4: when every Generation Port attempt raises or returns a
contract-violating list, both the Intent-Level Reranker and the
Cross-Intent Combiner return the empty list as a value rather than
raising. -/
theorem c4_exhausted_retries_return_empty {α : Type} (top_k final_top_k : Nat)
    (uq1 : String) (ai_response : α) (user_question_results : List Document)
    (sentence_results : List (List Document)) (ibeh : Nat → GenOutcome)
    (uq2 : String) (list_of_intents : List String)
    (list_of_list_of_tools : List (List String))
    (cbeh : Nat → RerankerDecomposedQueries.AttemptBehavior)
    (hib : ∀ i, i < 3 → ibeh i = .raise ∨ ∃ l, ibeh i = .ret l ∧ l.length ≠ top_k)
    (hcb : ∀ i, i < 3 → (cbeh i).firstPass = .error () ∨ (cbeh i).secondPass = .raise ∨
      ∃ l, (cbeh i).secondPass = .ret l ∧
        (l.length ≠ final_top_k ∨ l.dedup.length ≠ final_top_k)) :
    RerankerMultiQueryExpansionVariations.generate top_k uq1 ai_response
      user_question_results sentence_results ibeh = .ok [] ∧
    RerankerDecomposedQueries.generate final_top_k uq2 list_of_intents
      list_of_list_of_tools cbeh = .ok [] := by
  constructor
  · have hrej : ∀ j, j < 3 → parseExactLengthList top_k (ibeh (0 + j)) = none := by
      intro j hj
      rw [Nat.zero_add]
      exact parseExactLengthList_eq_none (hib j hj)
    unfold RerankerMultiQueryExpansionVariations.generate
      RerankerMultiQueryExpansionVariations.generateRun
    rw [RerankerMultiQueryExpansionVariations.attemptLoop_all_rejected top_k ibeh 3 0 none hrej]
  · have hfail : ∀ j, j < 3 → (cbeh (0 + j)).firstPass = .error () ∨
        parseExactLengthList final_top_k (cbeh (0 + j)).secondPass = none ∨
        ∃ l, parseExactLengthList final_top_k (cbeh (0 + j)).secondPass = some l ∧
          l.dedup.length ≠ final_top_k := by
      intro j hj
      rw [Nat.zero_add]
      rcases hcb j hj with h | h | ⟨l, hl, hor⟩
      · exact Or.inl h
      · exact Or.inr (Or.inl (parseExactLengthList_eq_none (Or.inl h)))
      · rcases hor with hlen | hded
        · exact Or.inr (Or.inl (parseExactLengthList_eq_none (Or.inr ⟨l, hl, hlen⟩)))
        · by_cases hlen : l.length = final_top_k
          · refine Or.inr (Or.inr ⟨l, ?_, hded⟩)
            rw [hl]
            simp [parseExactLengthList, hlen]
          · exact Or.inr (Or.inl (parseExactLengthList_eq_none (Or.inr ⟨l, hl, hlen⟩)))
    unfold RerankerDecomposedQueries.generate RerankerDecomposedQueries.generateRun
    cases hres : (RerankerDecomposedQueries.attemptLoop final_top_k
        (RerankerDecomposedQueries.getFinalCombinedThoughtsMessages final_top_k uq2
          list_of_intents list_of_list_of_tools) cbeh 0 3 none).1 with
    | none => rfl
    | some m =>
      have hd : m.dedup.length ≠ final_top_k :=
        RerankerDecomposedQueries.attemptLoop_all_fail final_top_k
          (RerankerDecomposedQueries.getFinalCombinedThoughtsMessages final_top_k uq2
            list_of_intents list_of_list_of_tools) cbeh 3 0 none hfail
          (by intro l hx; cases hx) m hres
      simp [hd]

/-- C4 witness: both components return the empty list after three raising
attempts. -/
theorem c4_exhausted_retries_return_empty_witness :
    RerankerMultiQueryExpansionVariations.generate 2 "q" "resp" [] []
      (fun _ => .raise) = .ok [] ∧
    RerankerDecomposedQueries.generate 2 "q" ["intent one", "intent two"]
      [["tool_a", "tool_b"], ["tool_c", "tool_d"]]
      (fun _ => { firstPass := .error (), secondPass := .raise }) = .ok [] :=
  c4_exhausted_retries_return_empty 2 2 "q" "resp" [] [] (fun _ => .raise)
    "q" ["intent one", "intent two"] [["tool_a", "tool_b"], ["tool_c", "tool_d"]]
    (fun _ => { firstPass := .error (), secondPass := .raise })
    (fun _ _ => Or.inl rfl) (fun _ _ => Or.inl rfl)

/-- C5: with exactly one decomposed intent, the Fusion Result equals that
branch's Intent-Level Reranker output unchanged — which is itself the
`final_top_k_tools` computed by `rerank_expanded_queries` — and the
Cross-Intent Combiner makes no Generation Port invocation. -/
theorem c5_single_intent_shortcut (top_k final_top_k : Nat)
    (user_query rewritten_query : String) (bstate : DecomposedQueryState)
    (ibeh : Nat → GenOutcome) (cbeh : Nat → RerankerDecomposedQueries.AttemptBehavior) :
    rerank_decomposed_queries final_top_k
      { user_query := user_query, rewritten_query := rewritten_query,
        decomposed_query_dicts := [rerank_expanded_queries top_k bstate ibeh] } cbeh
      = ((rerank_expanded_queries top_k bstate ibeh).final_top_k_tools, 0) ∧
    (rerank_expanded_queries top_k bstate ibeh).final_top_k_tools =
      RerankerMultiQueryExpansionVariations.generateRun top_k
        (rerankExpandedQueriesCall bstate).user_question
        (rerankExpandedQueriesCall bstate).ai_response
        (rerankExpandedQueriesCall bstate).user_question_results
        (rerankExpandedQueriesCall bstate).sentence_results ibeh :=
  ⟨rfl, rfl⟩

/-- C7 counterexample: the extraction pass of the Query Expander is not
length-validated (its schema field carries only a description), so a list
of the wrong size is returned as-is. -/
theorem c7_counterexample :
    MultiQueryExpansionModule.generate 2 "query" (.ok "free-form reasoning")
      (.ok ["paraphrase one"]) = .ok ["paraphrase one"] ∧
    (["paraphrase one"] : List String).length ≠ 2 :=
  ⟨rfl, by decide⟩

/-- C7 as amended: the Query Expander returns the extraction pass's list
unchanged — its length equals `n_items` only when the Generation Port
itself returned `n_items` strings — and any Generation Port failure in
either pass propagates uncaught. -/
theorem c7_expander_passthrough (n_items : Nat) (query : String) (r : String)
    (l : List String) :
    MultiQueryExpansionModule.generate n_items query (.ok r) (.ok l) = .ok l ∧
    MultiQueryExpansionModule.generate n_items query (.error ()) (.ok l) = .error () ∧
    MultiQueryExpansionModule.generate n_items query (.ok r) (.error ()) = .error () :=
  ⟨rfl, rfl, rfl⟩

/-- C8: the Candidate Retriever performs exactly one Similarity Search
Port call; any port error — the index-not-ready `ValueError` included —
is re-raised as the single uniform `ValueError` kind whose message carries
the original message, and a successful result is returned unchanged. -/
theorem c8_candidate_retriever_error_wrapping
    (kb : Nat → Except PyError (List Document)) (q : String) (top_k : Nat) :
    (∀ docs, kb 0 = .ok docs →
      InitialToolRetrievalModule.generate kb q top_k = (.ok docs, 1)) ∧
    (∀ e, kb 0 = .error e →
      InitialToolRetrievalModule.generate kb q top_k =
        (.error (.valueError ("Error retrieving tools: " ++ e.message)), 1)) ∧
    InitialToolRetrievalModule.generate (fun _ => FAISSVectorStoreIndexer.query none q top_k)
        q top_k =
      (.error (.valueError
        ("Error retrieving tools: " ++ FAISSVectorStoreIndexer.notReadyMessage)), 1) := by
  refine ⟨?_, ?_, rfl⟩
  · intro docs h
    unfold InitialToolRetrievalModule.generate
    rw [h]
  · intro e h
    unfold InitialToolRetrievalModule.generate
    rw [h]

/-- C8 witness: a concrete backend error is wrapped into the uniform
retrieval-failure `ValueError` carrying the original message, in one port
call. -/
theorem c8_candidate_retriever_error_wrapping_witness :
    InitialToolRetrievalModule.generate (fun _ => .error (.otherError "backend down")) "q" 5
      = (.error (.valueError
          ("Error retrieving tools: " ++ (PyError.otherError "backend down").message)), 1) :=
  (c8_candidate_retriever_error_wrapping
    (fun _ => .error (.otherError "backend down")) "q" 5).2.1 (.otherError "backend down") rfl

/-- C9: in the Fusion Workflow branch, the `ai_response` argument handed
to the Intent-Level Reranker is the extracted paraphrase list, not the
free-form reasoning text of the expansion's first pass (which
`MultiQueryExpansionModule.generate` discards): here the first pass
produced a reasoning text that appears nowhere in the supplied value. -/
theorem c9_ai_response_is_extracted_list :
    (branchState 2 "intent one" (.ok "first-pass free-form reasoning")
        (.ok ["paraphrase one", "paraphrase two"]) (fun _ _ => []) 5).map
      (fun st => (rerankExpandedQueriesCall st).ai_response)
      = .ok ["paraphrase one", "paraphrase two"] ∧
    "first-pass free-form reasoning" ∉ (["paraphrase one", "paraphrase two"] : List String) :=
  ⟨rfl, by decide⟩

/-- C10: the Cross-Intent Combiner never raises: every input — an empty
intent list or an empty shortlist list included, where composing the
prompt itself raises inside the attempt — yields a normal return, with
the empty list (after zero Generation Port invocations) as the only
failure signal. -/
theorem c10_combiner_never_raises (final_top_k : Nat) (user_question : String)
    (beh : Nat → RerankerDecomposedQueries.AttemptBehavior) :
    (∀ list_of_intents : List String,
      RerankerDecomposedQueries.generate final_top_k user_question list_of_intents [] beh
        = .ok [] ∧
      RerankerDecomposedQueries.portInvocations final_top_k user_question
        list_of_intents [] beh = 0) ∧
    (∀ list_of_list_of_tools : List (List String),
      RerankerDecomposedQueries.generate final_top_k user_question [] list_of_list_of_tools beh
        = .ok [] ∧
      RerankerDecomposedQueries.portInvocations final_top_k user_question []
        list_of_list_of_tools beh = 0) ∧
    (∀ (list_of_intents : List String) (list_of_list_of_tools : List (List String)),
      ∃ l, RerankerDecomposedQueries.generate final_top_k user_question list_of_intents
        list_of_list_of_tools beh = .ok l) := by
  refine ⟨?_, ?_, ?_⟩
  · intro list_of_intents
    have hc : RerankerDecomposedQueries.getFinalCombinedThoughtsMessages final_top_k
        user_question list_of_intents [] = .error () := rfl
    constructor
    · unfold RerankerDecomposedQueries.generate RerankerDecomposedQueries.generateRun
      rw [hc, RerankerDecomposedQueries.attemptLoop_compose_error]
    · unfold RerankerDecomposedQueries.portInvocations
      rw [hc, RerankerDecomposedQueries.attemptLoop_compose_error]
  · intro list_of_list_of_tools
    have hc : RerankerDecomposedQueries.getFinalCombinedThoughtsMessages final_top_k
        user_question [] list_of_list_of_tools = .error () := by
      cases list_of_list_of_tools <;> rfl
    constructor
    · unfold RerankerDecomposedQueries.generate RerankerDecomposedQueries.generateRun
      rw [hc, RerankerDecomposedQueries.attemptLoop_compose_error]
    · unfold RerankerDecomposedQueries.portInvocations
      rw [hc, RerankerDecomposedQueries.attemptLoop_compose_error]
  · intro list_of_intents list_of_list_of_tools
    exact ⟨RerankerDecomposedQueries.generateRun final_top_k user_question
      list_of_intents list_of_list_of_tools beh, rfl⟩
